import Mathlib

/-!
Verification of the SOS 42 chat frontend (`src/unnamed/part_000` and
`src/frontend/src/app/page.tsx`) against its specification.

The repository ships two variants of the Next.js chat page.  Both hold the
component state `(messages, input, isLoading, documentId, uploadedFile,
isDragging)` and expose three handlers: `handleFileUpload`, `handleSubmit`
and `clearChat`.  The two variants agree on all the control flow modelled
here (guards, state updates, request bodies); they differ only in message
text, in the declared citation record of the `Message` interface, and in
how an image path is turned into a URL — those differences are embedded
separately below.

The backend (parser, vector index, retriever, analysis agent) is not part
of the source tree; where a claim depends on it, the relevant contract is
modelled from the specification and marked `Modelled from the spec:` in its
doc comment.
-/

namespace SOS42

/-- The `role` discriminator of the `Message` interface. -/
inductive Role where
  | user
  | assistant
deriving DecidableEq, Repr

/-- A citation as declared in `part_000`'s `Message` interface:
`{ page: number; content_type: string }`. -/
structure Citation where
  page : Nat
  content_type : String
deriving DecidableEq, Repr

/-- The `Message` interface of `part_000` (id, role, content, timestamp,
optional citations, optional images).  The JS `Date` timestamp is embedded
as a `Nat` tick. -/
structure Message where
  id : String
  role : Role
  content : String
  timestamp : Nat
  citations : Option (List Citation)
  images : Option (List String)
deriving DecidableEq, Repr

/-- The React component state of `Home` (both variants):
`messages`, `input`, `isLoading`, `documentId`, `uploadedFile`,
`isDragging`. -/
structure UIState where
  messages : List Message
  input : String
  isLoading : Bool
  documentId : Option String
  uploadedFile : Option String
  isDragging : Bool
deriving DecidableEq, Repr

/-- The JS `s.endsWith(suffix)` test, embedded over the character list
(Lean's own `String.endsWith` is defined through well-founded recursion
and does not evaluate inside the kernel). -/
def jsEndsWith (s suffix : String) : Bool :=
  suffix.data.isSuffixOf s.data

/-- The JS `s.startsWith(p)` test, embedded over the character list. -/
def jsStartsWith (s p : String) : Bool :=
  p.data.isPrefixOf s.data

/-- Truth of the JS guard `!input.trim()`: after trimming leading and
trailing whitespace nothing remains, i.e. the string is all whitespace. -/
def isBlank (s : String) : Bool :=
  s.data.all Char.isWhitespace

/-- Outcome of the awaited `POST /upload`: the response carries
`document_id`, or the request throws. -/
inductive UploadResult where
  | success (document_id : String)
  | failure
deriving DecidableEq, Repr

/-- What a single call of `handleFileUpload` produces: the final component
state, whether a POST was issued, and the `alert` text if any. -/
structure UploadOutcome where
  state : UIState
  postIssued : Bool
  alertMsg : Option String
deriving DecidableEq, Repr

/-- The confirmation text `handleFileUpload` places into the fresh message
list on success (part_000 variant). -/
def uploadSuccessContent (fileName : String) : String :=
  "✅ **" ++ fileName ++ "** uploaded successfully.  \nYou can now ask questions about this document."

/-- The single assistant message a successful upload installs. -/
def uploadConfirmMessage (fileName msgId : String) (now : Nat) : Message :=
  { id := msgId
  , role := Role.assistant
  , content := uploadSuccessContent fileName
  , timestamp := now
  , citations := none
  , images := none }

/-- `handleFileUpload` from `part_000` lines 90–121 (the
`frontend/src/app/page.tsx` variant at lines 48–80 has the same control
flow, with different alert/message strings).  A file whose name does not
end in `.pdf` is rejected before any request; otherwise the POST is
issued, and on success `uploadedFile`, `documentId` are set and `messages`
is replaced by the single confirmation message, while on failure only the
alert fires.  `finally` clears `isLoading` on both awaited paths. -/
def handleFileUpload (s : UIState) (fileName : String) (result : UploadResult)
    (msgId : String) (now : Nat) : UploadOutcome :=
  if !(jsEndsWith fileName ".pdf") then
    { state := s, postIssued := false, alertMsg := some "Only PDF files are supported" }
  else
    match result with
    | UploadResult.success docId =>
        { state := { s with isLoading := false
                          , uploadedFile := some fileName
                          , documentId := some docId
                          , messages := [uploadConfirmMessage fileName msgId now] }
        , postIssued := true
        , alertMsg := none }
    | UploadResult.failure =>
        { state := { s with isLoading := false }
        , postIssued := true
        , alertMsg := some "Failed to upload document" }

/-- Body of the `POST /query` request: `{ query, document_id, top_k }`. -/
structure QueryRequest where
  query : String
  document_id : String
  top_k : Nat
deriving DecidableEq, Repr

/-- The fields of `res.data` that `handleSubmit` reads on success:
`answer`, `citations`, `images`. -/
structure QueryResponse where
  answer : String
  citations : List Citation
  images : List String
deriving DecidableEq, Repr

/-- Outcome of the awaited `POST /query`: a response, or a thrown error. -/
inductive QueryResult where
  | ok (resp : QueryResponse)
  | err
deriving DecidableEq, Repr

/-- What a single call of `handleSubmit` produces: the final component
state and the request body sent, if one was sent at all. -/
structure SubmitOutcome where
  state : UIState
  request : Option QueryRequest
deriving DecidableEq, Repr

/-- The error bubble text of the catch branch (part_000 variant). -/
def queryErrorContent : String := "❌ Error processing your question."

/-- The assistant message built from a successful query response
(`content: res.data.answer, citations: res.data.citations,
images: res.data.images`). -/
def assistantMessageOf (resp : QueryResponse) (msgId : String) (now : Nat) : Message :=
  { id := msgId
  , role := Role.assistant
  , content := resp.answer
  , timestamp := now
  , citations := some resp.citations
  , images := some resp.images }

/-- `handleSubmit` from `part_000` lines 127–173 (same control flow as
`frontend/src/app/page.tsx` lines 104–150).  The guard
`if (!input.trim() || !documentId || isLoading) return;` makes the call a
no-op when the trimmed input is empty, no document id is held, or a query
is already in flight.  Otherwise the user message is appended, the input
cleared, the request `{ query, document_id, top_k: 5 }` posted, and either
the answer message or the fixed error message appended; `finally` clears
`isLoading`. -/
def handleSubmit (s : UIState) (result : QueryResult)
    (userMsgId assistantMsgId : String) (now : Nat) : SubmitOutcome :=
  match s.documentId with
  | none => { state := s, request := none }
  | some docId =>
      if isBlank s.input || s.isLoading then
        { state := s, request := none }
      else
        let userMessage : Message :=
          { id := userMsgId, role := Role.user, content := s.input
          , timestamp := now, citations := none, images := none }
        let req : QueryRequest := { query := s.input, document_id := docId, top_k := 5 }
        let afterUser : UIState := { s with messages := s.messages ++ [userMessage], input := "" }
        match result with
        | QueryResult.ok resp =>
            { state := { afterUser with
                isLoading := false
              , messages := afterUser.messages ++ [assistantMessageOf resp assistantMsgId now] }
            , request := some req }
        | QueryResult.err =>
            { state := { afterUser with
                isLoading := false
              , messages := afterUser.messages ++
                  [{ id := assistantMsgId, role := Role.assistant, content := queryErrorContent
                   , timestamp := now, citations := none, images := none }] }
            , request := some req }

/-- `clearChat` from `part_000` lines 179–183: empties the message list and
drops both the document id and the uploaded file name. -/
def clearChat (s : UIState) : UIState :=
  { s with messages := [], documentId := none, uploadedFile := none }

/-! ## Conditional rendering of the answer bubble

Both variants render a Sources/citations block only under
`msg.citations && msg.citations.length > 0` (part_000 line 263,
frontend line 266) and an images block only under
`msg.images && msg.images.length > 0` (part_000 line 273,
frontend line 283). -/

/-- Truth of the JSX guard `msg.citations && msg.citations.length > 0`. -/
def rendersCitations (m : Message) : Bool :=
  match m.citations with
  | none => false
  | some cs => decide (0 < cs.length)

/-- Truth of the JSX guard `msg.images && msg.images.length > 0`. -/
def rendersImages (m : Message) : Bool :=
  match m.images with
  | none => false
  | some imgs => decide (0 < imgs.length)

/-! ## Image URL resolution

`part_000`'s `ImageGrid` (lines 46–58) builds
`API_URL + (path starts with '/' ? '' : '/') + path`; the frontend page
(line 290) builds `API_URL + '/' + path`. -/

/-- URL built by `part_000`'s `ImageGrid` for one image path. -/
def imageUrlA (apiUrl path : String) : String :=
  apiUrl ++ (if jsStartsWith path "/" then "" else "/") ++ path

/-- URL built by `frontend/src/app/page.tsx` for one image path. -/
def imageUrlB (apiUrl path : String) : String :=
  apiUrl ++ "/" ++ path

/-! ## Declared citation shapes

The two `Message` interfaces declare different citation element types;
the field names are embedded as lists, in declaration order. -/

/-- Field names of the citation element type declared in `part_000`
(lines 35–38): `{ page: number; content_type: string }`. -/
def citationFieldsA : List String := ["page", "content_type"]

/-- Field names of the citation element type declared in
`frontend/src/app/page.tsx` (lines 21–25):
`{ page: number; content_type: string; score: number }`. -/
def citationFieldsB : List String := ["page", "content_type", "score"]

/-- The citation shape the spec's query boundary mandates:
`citations: [{page, content_type}]`. -/
def specCitationFields : List String := ["page", "content_type"]

/-! ## Event traces over the component state

The handlers above are folded over a list of UI events to state
trace-level invariants (which document id a query can ever carry). -/

/-- One user-visible event hitting the `Home` component. -/
inductive Event where
  | upload (fileName : String) (result : UploadResult) (msgId : String) (now : Nat)
  | submit (result : QueryResult) (userMsgId assistantMsgId : String) (now : Nat)
  | clear
  | setInput (text : String)
deriving Repr

/-- State transition of one event (projecting away outputs). -/
def step (s : UIState) : Event → UIState
  | Event.upload f r m n => (handleFileUpload s f r m n).state
  | Event.submit r u a n => (handleSubmit s r u a n).state
  | Event.clear => clearChat s
  | Event.setInput t => { s with input := t }

/-- Fold a list of events over the component state. -/
def run (s : UIState) : List Event → UIState
  | [] => s
  | e :: es => run (step s e) es

/-- The document id of the most recent successful upload, starting from
`d`, reset by `clearChat`; uploads of non-`.pdf` names or failed uploads
leave it alone. -/
def lastUploadDocId (d : Option String) : List Event → Option String
  | [] => d
  | Event.upload f r _ _ :: es =>
      lastUploadDocId
        (if jsEndsWith f ".pdf" then
          match r with
          | UploadResult.success docId => some docId
          | UploadResult.failure => d
        else d) es
  | Event.clear :: es => lastUploadDocId none es
  | Event.submit _ _ _ _ :: es => lastUploadDocId d es
  | Event.setInput _ :: es => lastUploadDocId d es

/-! ## Spec-modelled backend

The backend services (`app/services/…` in the README's project layout)
are not under the source tree; the contracts the claims need are modelled
from the spec. -/

/-- Modelled from the spec: an `IndexEntry` of the Vector Index — the
persisted tuple (chunk id, document id, vector, metadata snapshot) of §3;
the missing code is `app/services/vector_store.py`. -/
structure IndexEntry where
  chunk_id : String
  document_id : String
  page : Nat
  content_type : String
  embedding : List Int
  content : String
deriving DecidableEq, Repr

/-- Modelled from the spec: the similarity score of §4.4 (a normalized
dot-product; normalization does not affect document scoping). -/
def dotProduct : List Int → List Int → Int
  | [], _ => 0
  | _, [] => 0
  | a :: as, b :: bs => a * b + dotProduct as bs

/-- Insert one scored entry into a descending-by-score list, keeping
original order among equal scores (stable tie-breaking, §4.4). -/
def insertDesc (p : IndexEntry × Int) : List (IndexEntry × Int) → List (IndexEntry × Int)
  | [] => [p]
  | q :: qs => if q.2 < p.2 then p :: q :: qs else q :: insertDesc p qs

/-- Stable sort by score, descending. -/
def sortByScoreDesc : List (IndexEntry × Int) → List (IndexEntry × Int)
  | [] => []
  | p :: ps => insertDesc p (sortByScoreDesc ps)

/-- Modelled from the spec: `query(document id, query vector, k)` of the
Vector Index (§4.4, `app/services/vector_store.py` missing from the
source tree) — restrict to the document's entries, score, rank
deterministically, take `k`. -/
def vectorQuery (entries : List IndexEntry) (docId : String) (qvec : List Int)
    (k : Nat) : List (IndexEntry × Int) :=
  (sortByScoreDesc ((entries.filter (fun e => e.document_id == docId)).map
    (fun e => (e, dotProduct e.embedding qvec)))).take k

/-- The Answer record of the query boundary:
`{ text, citations: [{page, content_type}], images: [path] }`. -/
structure Answer where
  text : String
  citations : List Citation
  images : List String
deriving DecidableEq, Repr

/-- Modelled from the spec: the Fallback Protocol response of §4.6 — a
fixed-shape answer with zero citations and zero images (the Analysis
Agent, `app/services/rag_service.py`, is missing from the source tree;
the text is a representative fixed string). -/
def fallbackAnswer : Answer :=
  { text := "No grounded answer exists for this question in the uploaded document."
  , citations := []
  , images := [] }

/-- Modelled from the spec: the Analysis Agent interface
`assessAndAnswer(query, evidence) → Answer | InsufficientEvidence` of §9,
with the Relevance Gate and synthesis stages passed in as the
probabilistic parts (§4.6): on a `sufficient` gate the synthesized answer
is returned, on `insufficient` the Fallback Protocol fires. -/
def assessAndAnswer (gate : String → List (IndexEntry × Int) → Bool)
    (synthesize : String → List (IndexEntry × Int) → Answer)
    (q : String) (evidence : List (IndexEntry × Int)) : Answer :=
  if gate q evidence then synthesize q evidence else fallbackAnswer

/-- How an Answer crosses the wire to the UI (`res.data.answer`,
`res.data.citations`, `res.data.images`). -/
def toResponse (a : Answer) : QueryResponse :=
  { answer := a.text, citations := a.citations, images := a.images }

/-- Modelled from the spec: the three query-boundary outcomes of §7 — a
grounded answer, "no answer possible" (insufficient evidence, delivered
as a successful response carrying the Fallback Protocol answer), and
"system error" (provider/storage failure, delivered as a failed
request). -/
inductive QueryBoundaryOutcome where
  | grounded (a : Answer)
  | noAnswerPossible
  | systemError
deriving DecidableEq, Repr

/-- Modelled from the spec: how each query-boundary outcome reaches
`handleSubmit`'s `await axios.post` — only a system error throws. -/
def toQueryResult : QueryBoundaryOutcome → QueryResult
  | QueryBoundaryOutcome.grounded a => QueryResult.ok (toResponse a)
  | QueryBoundaryOutcome.noAnswerPossible => QueryResult.ok (toResponse fallbackAnswer)
  | QueryBoundaryOutcome.systemError => QueryResult.err

/-- Content of the last message of a state, if any. -/
def lastContent (s : UIState) : Option String :=
  s.messages.getLast?.map Message.content

/-! ## Helper lemmas -/

/-- The last element of a list extended by one element. -/
lemma getLast?_append_single {α : Type} (l : List α) (a : α) :
    (l ++ [a]).getLast? = some a := by
  induction l with
  | nil => rfl
  | cons x xs ih =>
      rw [List.cons_append]
      cases hxs : xs ++ [a] with
      | nil => exact absurd hxs (by simp)
      | cons y t => rw [List.getLast?_cons_cons, ← hxs, ih]

/-- `handleSubmit` never changes which document id is held. -/
lemma handleSubmit_documentId (s : UIState) (r : QueryResult) (u a : String) (n : Nat) :
    (handleSubmit s r u a n).state.documentId = s.documentId := by
  unfold handleSubmit
  cases hd : s.documentId with
  | none => exact hd
  | some d =>
      dsimp only
      split
      · exact hd
      · cases r <;> rfl

/-- Membership through a stable descending insertion. -/
lemma mem_insertDesc {x p : IndexEntry × Int} {l : List (IndexEntry × Int)}
    (h : x ∈ insertDesc p l) : x = p ∨ x ∈ l := by
  induction l with
  | nil => exact Or.inl (List.mem_singleton.mp h)
  | cons q qs ih =>
      unfold insertDesc at h
      split at h
      · simpa using h
      · rcases List.mem_cons.mp h with h1 | h1
        · exact Or.inr (List.mem_cons.mpr (Or.inl h1))
        · rcases ih h1 with h2 | h2
          · exact Or.inl h2
          · exact Or.inr (List.mem_cons.mpr (Or.inr h2))

/-- Sorting by score introduces no new entries. -/
lemma mem_sortByScoreDesc {x : IndexEntry × Int} {l : List (IndexEntry × Int)}
    (h : x ∈ sortByScoreDesc l) : x ∈ l := by
  induction l with
  | nil => exact absurd h (List.not_mem_nil x)
  | cons p ps ih =>
      unfold sortByScoreDesc at h
      rcases mem_insertDesc h with h1 | h1
      · simp [h1]
      · exact List.mem_cons.mpr (Or.inr (ih h1))

/-- Every entry returned by `vectorQuery` belongs to the queried document. -/
lemma vectorQuery_docId {entries : List IndexEntry} {docId : String} {qvec : List Int}
    {k : Nat} {p : IndexEntry × Int} (h : p ∈ vectorQuery entries docId qvec k) :
    p.1.document_id = docId := by
  unfold vectorQuery at h
  have h2 := mem_sortByScoreDesc (List.mem_of_mem_take h)
  rcases List.mem_map.mp h2 with ⟨e, he, hpe⟩
  have hf := (List.mem_filter.mp he).2
  rw [← hpe]
  exact eq_of_beq hf

/-- A `handleSubmit` call that posts a request read its document id from
the state. -/
lemma handleSubmit_request_docId (s : UIState) (r : QueryResult) (u a : String)
    (n : Nat) (req : QueryRequest)
    (h : (handleSubmit s r u a n).request = some req) :
    s.documentId = some req.document_id := by
  unfold handleSubmit at h
  cases hd : s.documentId with
  | none => rw [hd] at h; exact absurd h (by simp)
  | some d =>
      rw [hd] at h
      dsimp only at h
      split at h
      · exact absurd h (by simp)
      · cases r with
        | ok resp =>
            simp only [Option.some.injEq] at h
            rw [← h]
        | err =>
            simp only [Option.some.injEq] at h
            rw [← h]

/-- `run` over a cons unfolds to a step then a run. -/
lemma run_cons (s : UIState) (e : Event) (es : List Event) :
    run s (e :: es) = run (step s e) es := rfl

/-- The held document id after any event trace is exactly the id of the
most recent successful upload (reset by clear). -/
lemma run_documentId (events : List Event) :
    ∀ s0 : UIState, (run s0 events).documentId = lastUploadDocId s0.documentId events := by
  induction events with
  | nil => intro s0; rfl
  | cons e es ih =>
      intro s0
      rw [run_cons, ih]
      cases e with
      | upload f r m n =>
          cases hf : jsEndsWith f ".pdf" <;> cases r <;>
            simp [step, handleFileUpload, lastUploadDocId, hf]
      | submit r u a n =>
          have hstep : (step s0 (Event.submit r u a n)).documentId = s0.documentId :=
            handleSubmit_documentId s0 r u a n
          rw [hstep]
          simp only [lastUploadDocId]
      | clear =>
          have hstep : (step s0 Event.clear).documentId = none := rfl
          rw [hstep]
          simp only [lastUploadDocId]
      | setInput t =>
          have hstep : (step s0 (Event.setInput t)).documentId = s0.documentId := rfl
          rw [hstep]
          simp only [lastUploadDocId]

/-! ## Concrete fixtures -/

/-- The state the component mounts with: all hooks at their initial
values. -/
def initialState : UIState :=
  { messages := [], input := "", isLoading := false
  , documentId := none, uploadedFile := none, isDragging := false }

/-- A session holding an uploaded document and a typed question. -/
def exampleReadyState : UIState :=
  { messages := [], input := "What was the total revenue?", isLoading := false
  , documentId := some "doc-1", uploadedFile := some "report.pdf", isDragging := false }

/-- The ready session while a query is still in flight. -/
def busyState : UIState :=
  { exampleReadyState with isLoading := true }

/-- A ready session that already holds a conversation. -/
def chattyState : UIState :=
  { exampleReadyState with messages := [uploadConfirmMessage "old.pdf" "m0" 0] }

/-- An index entry of the queried document. -/
def entryA : IndexEntry :=
  { chunk_id := "c1", document_id := "doc-1", page := 3, content_type := "text"
  , embedding := [1], content := "Total revenue: 4.2M" }

/-- An index entry of a different document. -/
def entryB : IndexEntry :=
  { chunk_id := "c2", document_id := "doc-2", page := 1, content_type := "text"
  , embedding := [5], content := "Unrelated document" }

/-- The request body `handleSubmit` posts from `exampleReadyState`. -/
def exampleRequest : QueryRequest :=
  { query := "What was the total revenue?", document_id := "doc-1", top_k := 5 }

/-- A gate that always judges the evidence insufficient. -/
def gateNever : String → List (IndexEntry × Int) → Bool := fun _ _ => false

/-- A synthesis stub (never consulted under an insufficient gate). -/
def synthStub : String → List (IndexEntry × Int) → Answer := fun _ _ => fallbackAnswer

/-- The unrelated question of the insufficient-evidence scenario. -/
def unrelatedQuery : String := "What is the page 50 revenue?"

/-! ## Claims -/

/-- C1: when the Relevance Gate judges the evidence insufficient, the
agent returns the fixed Fallback Protocol answer — empty citations and
empty images — and the assistant message the UI builds from that
response renders neither a Sources section nor an Images section. -/
theorem insufficient_evidence_fallback
    (gate : String → List (IndexEntry × Int) → Bool)
    (synthesize : String → List (IndexEntry × Int) → Answer)
    (q : String) (ev : List (IndexEntry × Int)) (msgId : String) (now : Nat)
    (h : gate q ev = false) :
    assessAndAnswer gate synthesize q ev = fallbackAnswer
  ∧ (assessAndAnswer gate synthesize q ev).citations = []
  ∧ (assessAndAnswer gate synthesize q ev).images = []
  ∧ rendersCitations
      (assistantMessageOf (toResponse (assessAndAnswer gate synthesize q ev)) msgId now) = false
  ∧ rendersImages
      (assistantMessageOf (toResponse (assessAndAnswer gate synthesize q ev)) msgId now) = false := by
  simp [assessAndAnswer, h, fallbackAnswer, rendersCitations, rendersImages,
    assistantMessageOf, toResponse]

/-- C1 witness: the insufficient-evidence scenario at a concrete gate,
an unrelated question and empty evidence. -/
theorem insufficient_evidence_fallback_example :
    gateNever unrelatedQuery [] = false
  ∧ (assessAndAnswer gateNever synthStub unrelatedQuery [] = fallbackAnswer
  ∧ (assessAndAnswer gateNever synthStub unrelatedQuery []).citations = []
  ∧ (assessAndAnswer gateNever synthStub unrelatedQuery []).images = []
  ∧ rendersCitations
      (assistantMessageOf (toResponse (assessAndAnswer gateNever synthStub unrelatedQuery [])) "m1" 0) = false
  ∧ rendersImages
      (assistantMessageOf (toResponse (assessAndAnswer gateNever synthStub unrelatedQuery [])) "m1" 0) = false) :=
  ⟨rfl, insufficient_evidence_fallback gateNever synthStub unrelatedQuery [] "m1" 0 rfl⟩

/-- C2: document-scope isolation — `vectorQuery` only ever returns
entries of the queried document id; the document id held by the UI after
any event trace is exactly the one of the most recent successful upload
(reset by clear); every request `handleSubmit` posts carries exactly the
held document id; and no request is posted while none is held. -/
theorem document_scope_isolation :
    (∀ (entries : List IndexEntry) (docId : String) (qvec : List Int) (k : Nat)
        (p : IndexEntry × Int),
        p ∈ vectorQuery entries docId qvec k → p.1.document_id = docId)
  ∧ (∀ (s0 : UIState) (events : List Event),
        (run s0 events).documentId = lastUploadDocId s0.documentId events)
  ∧ (∀ (s : UIState) (r : QueryResult) (u a : String) (n : Nat) (req : QueryRequest),
        (handleSubmit s r u a n).request = some req → s.documentId = some req.document_id)
  ∧ (∀ (s : UIState) (r : QueryResult) (u a : String) (n : Nat),
        s.documentId = none → (handleSubmit s r u a n).request = none) := by
  refine ⟨?_, ?_, ?_, ?_⟩
  · intro entries docId qvec k p hp
    exact vectorQuery_docId hp
  · intro s0 events
    exact run_documentId events s0
  · intro s r u a n req h
    exact handleSubmit_request_docId s r u a n req h
  · intro s r u a n h
    unfold handleSubmit
    rw [h]

/-- C2 witness: a two-document index queried for doc-1, a one-upload
trace, the request body of the ready session, and the blocked submit of
the fresh session. -/
theorem document_scope_isolation_example :
    (entryA, (1 : Int)).1.document_id = "doc-1"
  ∧ (run initialState [Event.upload "report.pdf" (UploadResult.success "doc-1") "m1" 0]).documentId
      = lastUploadDocId initialState.documentId
          [Event.upload "report.pdf" (UploadResult.success "doc-1") "m1" 0]
  ∧ exampleReadyState.documentId = some exampleRequest.document_id
  ∧ (handleSubmit initialState QueryResult.err "u1" "a1" 0).request = none := by
  refine ⟨?_, ?_, ?_, ?_⟩
  · exact document_scope_isolation.1 [entryA, entryB] "doc-1" [1] 5 (entryA, 1) (by decide)
  · exact document_scope_isolation.2.1 initialState
      [Event.upload "report.pdf" (UploadResult.success "doc-1") "m1" 0]
  · exact document_scope_isolation.2.2.1 exampleReadyState
      (QueryResult.ok (toResponse fallbackAnswer)) "u1" "a1" 0 exampleRequest (by decide)
  · exact document_scope_isolation.2.2.2 initialState QueryResult.err "u1" "a1" 0 rfl

/-- C3 counterexample: the claim that both variants declare a citation as
a bare (page, content_type) record is false — the
`frontend/src/app/page.tsx` variant declares a third field, `score`, on
every citation. -/
theorem citation_shape_mismatch :
    ¬ (citationFieldsA = specCitationFields ∧ citationFieldsB = specCitationFields) := by
  decide

/-- C3 amended: `part_000` declares citations exactly as the spec's
(page, content_type) pairs; the frontend variant declares the same two
fields followed by an additional `score` field. -/
theorem citation_shapes :
    citationFieldsA = specCitationFields
  ∧ citationFieldsB = specCitationFields ++ ["score"] := by
  decide

/-- C4: the two failure cases of a query stay distinguishable — the
"no answer possible" case arrives as a successful response carrying the
Fallback Protocol answer while the "system error" case arrives as a
thrown request, and the assistant bubbles the UI appends for the two
cases carry different texts. -/
theorem failure_cases_distinguishable (s : UIState) (u a : String) (n : Nat) (d : String)
    (hd : s.documentId = some d) (hin : isBlank s.input = false)
    (hl : s.isLoading = false) :
    toQueryResult QueryBoundaryOutcome.noAnswerPossible
      ≠ toQueryResult QueryBoundaryOutcome.systemError
  ∧ lastContent (handleSubmit s (toQueryResult QueryBoundaryOutcome.noAnswerPossible) u a n).state
      = some fallbackAnswer.text
  ∧ lastContent (handleSubmit s (toQueryResult QueryBoundaryOutcome.systemError) u a n).state
      = some queryErrorContent
  ∧ fallbackAnswer.text ≠ queryErrorContent := by
  refine ⟨by simp [toQueryResult], ?_, ?_, by decide⟩
  · unfold handleSubmit toQueryResult
    rw [hd]
    simp [hin, hl, lastContent, assistantMessageOf, toResponse, getLast?_append_single]
  · unfold handleSubmit toQueryResult
    rw [hd]
    simp [hin, hl, lastContent, getLast?_append_single]

/-- C4 witness: both failure cases played against the ready session. -/
theorem failure_cases_distinguishable_example :
    toQueryResult QueryBoundaryOutcome.noAnswerPossible
      ≠ toQueryResult QueryBoundaryOutcome.systemError
  ∧ lastContent (handleSubmit exampleReadyState
      (toQueryResult QueryBoundaryOutcome.noAnswerPossible) "u1" "a1" 0).state
      = some fallbackAnswer.text
  ∧ lastContent (handleSubmit exampleReadyState
      (toQueryResult QueryBoundaryOutcome.systemError) "u1" "a1" 0).state
      = some queryErrorContent
  ∧ fallbackAnswer.text ≠ queryErrorContent :=
  failure_cases_distinguishable exampleReadyState "u1" "a1" 0 "doc-1" rfl (by decide) rfl

/-- C5: a failed upload is all-or-nothing for the session — the catch
branch of `handleFileUpload` leaves `documentId`, `uploadedFile` and
`messages` exactly as they were, so no document becomes queryable. -/
theorem upload_failure_preserves_state (s : UIState) (f m : String) (n : Nat) :
    (handleFileUpload s f UploadResult.failure m n).state.documentId = s.documentId
  ∧ (handleFileUpload s f UploadResult.failure m n).state.uploadedFile = s.uploadedFile
  ∧ (handleFileUpload s f UploadResult.failure m n).state.messages = s.messages := by
  cases hf : jsEndsWith f ".pdf" <;> simp [handleFileUpload, hf]

/-- C6: a file whose name does not end in `.pdf` is rejected before any
request — no POST is issued, the state is untouched, and the unsupported
format alert fires. -/
theorem non_pdf_rejected_before_post (s : UIState) (f : String) (r : UploadResult)
    (m : String) (n : Nat) (h : jsEndsWith f ".pdf" = false) :
    (handleFileUpload s f r m n).postIssued = false
  ∧ (handleFileUpload s f r m n).state = s
  ∧ (handleFileUpload s f r m n).alertMsg = some "Only PDF files are supported" := by
  simp [handleFileUpload, h]

/-- C6 witness: uploading a text file into the fresh session. -/
theorem non_pdf_rejected_before_post_example :
    (jsEndsWith "notes.txt" ".pdf") = false
  ∧ ((handleFileUpload initialState "notes.txt" UploadResult.failure "m1" 0).postIssued = false
  ∧ (handleFileUpload initialState "notes.txt" UploadResult.failure "m1" 0).state = initialState
  ∧ (handleFileUpload initialState "notes.txt" UploadResult.failure "m1" 0).alertMsg
      = some "Only PDF files are supported") :=
  ⟨by decide, non_pdf_rejected_before_post initialState "notes.txt" UploadResult.failure "m1" 0 (by decide)⟩

/-- C7: `clearChat` destroys the document reference — messages become
empty, `documentId` and `uploadedFile` become null, and from the cleared
state `handleSubmit` can never post a request. -/
theorem clearChat_resets_session (s : UIState) :
    (clearChat s).messages = []
  ∧ (clearChat s).documentId = none
  ∧ (clearChat s).uploadedFile = none
  ∧ ∀ (r : QueryResult) (u a : String) (n : Nat),
      (handleSubmit (clearChat s) r u a n).request = none :=
  ⟨rfl, rfl, rfl, fun _ _ _ _ => rfl⟩

/-- C8 counterexample: the two image URL builders disagree on a path
that begins with a slash. -/
theorem image_url_mismatch :
    imageUrlA "http://localhost:8000" "/outputs/images/fig1.png"
      ≠ imageUrlB "http://localhost:8000" "/outputs/images/fig1.png" := by
  decide

/-- C8 amended: the two image URL builders agree exactly on the paths
that do not begin with a slash; on a slash-prefixed path `part_000`
omits the separator while the frontend inserts it, so the URLs differ. -/
theorem image_url_agreement_iff (apiUrl path : String) :
    imageUrlA apiUrl path = imageUrlB apiUrl path ↔ jsStartsWith path "/" = false := by
  unfold imageUrlA imageUrlB
  cases h : jsStartsWith path "/" with
  | false => simp
  | true =>
      rw [if_pos rfl]
      simp only [Bool.true_eq_false, iff_false]
      intro heq
      have hl := congrArg String.length heq
      simp only [String.length_append] at hl
      have h0 : ("" : String).length = 0 := rfl
      have h1 : ("/" : String).length = 1 := rfl
      rw [h0, h1] at hl
      omega

/-- C8 witness: on a relative path the two builders agree. -/
theorem image_url_agreement_iff_example :
    imageUrlA "http://localhost:8000" "outputs/images/fig1.png"
      = imageUrlB "http://localhost:8000" "outputs/images/fig1.png" :=
  (image_url_agreement_iff "http://localhost:8000" "outputs/images/fig1.png").mpr (by decide)

/-- C9: at most one query is in flight — whenever a query is pending, or
the trimmed input is blank, or no document id is held, `handleSubmit`
posts nothing and leaves the state exactly as it was. -/
theorem pending_query_blocks_submit (s : UIState) (r : QueryResult) (u a : String) (n : Nat)
    (h : s.isLoading = true ∨ isBlank s.input = true ∨ s.documentId = none) :
    (handleSubmit s r u a n).request = none
  ∧ (handleSubmit s r u a n).state = s := by
  cases hd : s.documentId with
  | none =>
      unfold handleSubmit
      rw [hd]
      exact ⟨rfl, rfl⟩
  | some d =>
      rcases h with h | h | h
      · simp [handleSubmit, hd, h]
      · simp [handleSubmit, hd, h]
      · rw [hd] at h
        exact absurd h (by simp)

/-- C9 witness: a second submission while a query is pending is a no-op. -/
theorem pending_query_blocks_submit_example :
    (busyState.isLoading = true ∨ isBlank busyState.input = true
      ∨ busyState.documentId = none)
  ∧ ((handleSubmit busyState QueryResult.err "u2" "a2" 0).request = none
  ∧ (handleSubmit busyState QueryResult.err "u2" "a2" 0).state = busyState) :=
  ⟨Or.inl rfl, pending_query_blocks_submit busyState QueryResult.err "u2" "a2" 0 (Or.inl rfl)⟩

/-- C10: a successful upload replaces the whole conversation — whatever
the prior message list was, afterwards it is exactly the single
assistant confirmation message. -/
theorem upload_replaces_conversation (s : UIState) (f docId m : String) (n : Nat)
    (h : jsEndsWith f ".pdf" = true) :
    (handleFileUpload s f (UploadResult.success docId) m n).state.messages
      = [uploadConfirmMessage f m n]
  ∧ (handleFileUpload s f (UploadResult.success docId) m n).state.messages.length = 1
  ∧ (uploadConfirmMessage f m n).role = Role.assistant := by
  simp [handleFileUpload, h, uploadConfirmMessage]

/-- C10 witness: re-uploading over a session that already holds a
conversation. -/
theorem upload_replaces_conversation_example :
    (jsEndsWith "report.pdf" ".pdf") = true
  ∧ ((handleFileUpload chattyState "report.pdf" (UploadResult.success "doc-2") "m1" 7).state.messages
      = [uploadConfirmMessage "report.pdf" "m1" 7]
  ∧ (handleFileUpload chattyState "report.pdf" (UploadResult.success "doc-2") "m1" 7).state.messages.length = 1
  ∧ (uploadConfirmMessage "report.pdf" "m1" 7).role = Role.assistant) :=
  ⟨by decide, upload_replaces_conversation chattyState "report.pdf" "doc-2" "m1" 7 (by decide)⟩

end SOS42
